import Mathlib

/-!
Shallow embedding of the mbed-QEI quadrature-encoder driver
(src/QEI.h, src/QEI.cpp).

Modelling conventions:
* `int` fields are `Int`, `unsigned int` fields are `Nat`.
* The 32-bit wraparound subtraction `act - _nSpeedLastTimer` on
  `unsigned int` is modelled explicitly modulo `2^32` (`QEI.timerDiff`);
  other integer arithmetic in the claims stays far from overflow, so it
  is modelled with unbounded `Int`/`Nat`.
* `float` fields (`_fSpeedFactor`, `_fPositionFactor`, `_fLastSpeed` and
  the speed computation) are modelled over `ℚ`; every float operation the
  claims exercise (multiplication by `0.5f`, the divisions in the test
  scenario) is exact in binary floating point at the values involved, so
  the rational model agrees with the C code there.
* Hardware access (`_channelA.read()`, `_SpeedTimer.read_us()`) becomes
  explicit inputs `chanA chanB act` to `QEI.encode`; interrupt
  registration and the critical section (`__disable_irq`) disappear in
  the sequential model, where each operation runs atomically.
* The local `_fSpeed` member is always written before it is read inside
  `getSpeed`, so it is modelled as the returned value rather than a field.
-/

namespace QEI

/-- Enum `QEI::Encoding` (QEI.h lines 123-127). -/
inductive Encoding
  | X2_ENCODING
  | X4_ENCODING
deriving DecidableEq, Repr

/-- Constant `PREV_MASK` (QEI.h line 112). -/
def PREV_MASK : Nat := 0x01

/-- Constant `CURR_MASK` (QEI.h line 113). -/
def CURR_MASK : Nat := 0x02

/-- Constant `INVALID` (QEI.h line 114). -/
def INVALID : Nat := 0x03

/-- Modulus of the `unsigned int` timer arithmetic. -/
def UINT32 : Nat := 2 ^ 32

/-- The member variables of class `QEI` (QEI.h lines 209-231) that carry
state across calls. -/
structure State where
  encoding : Encoding
  prevState : Nat
  currState : Nat
  pulses : Int
  revolutions : Int
  fSpeedFactor : ℚ
  fPositionFactor : ℚ
  nSpeedLastTimer : Nat
  nSpeedTimeoutMax : Nat
  nSpeedTimeoutCount : Nat
  nSpeedAvrTimeSum : Int
  nSpeedAvrTimeCount : Int
  fLastSpeed : ℚ
deriving DecidableEq, Repr

/-- The constructor `QEI::QEI` (QEI.cpp lines 3-45), with the initial
reads of channel A and B passed in as `chanA`, `chanB`.  The timer is
reset and started, so the current time base starts at 0. -/
def construct (encoding : Encoding) (chanA chanB : Nat) : State :=
  { encoding := encoding
    prevState := (chanA <<< 1) ||| chanB
    currState := (chanA <<< 1) ||| chanB
    pulses := 0
    revolutions := 0
    fSpeedFactor := 1
    fPositionFactor := 1
    nSpeedLastTimer := 0
    nSpeedTimeoutMax := 10
    nSpeedTimeoutCount := 0
    nSpeedAvrTimeSum := 0
    nSpeedAvrTimeCount := -1
    fLastSpeed := 0 }

/-- Method `QEI::reset` (QEI.cpp lines 55-59). -/
def reset (s : State) : State :=
  { s with pulses := 0, revolutions := 0 }

/-- Method `QEI::read` (QEI.cpp lines 61-64). -/
def read (s : State) : Int :=
  s.pulses

/-- Method `QEI::write` (QEI.cpp lines 66-69). -/
def write (s : State) (pulses : Int) : State :=
  { s with pulses := pulses }

/-- Method `QEI::setSpeedFactor` (QEI.cpp lines 71-74). -/
def setSpeedFactor (s : State) (f : ℚ) : State :=
  { s with fSpeedFactor := f }

/-- Method `QEI::setPositionFactor` (QEI.cpp lines 110-113). -/
def setPositionFactor (s : State) (f : ℚ) : State :=
  { s with fPositionFactor := f }

/-- Method `QEI::getPosition` (QEI.cpp lines 115-118): pure read,
`(float)_pulses * _fPositionFactor`. -/
def getPosition (s : State) : ℚ :=
  (s.pulses : ℚ) * s.fPositionFactor

/-- Method `QEI::getSpeed` (QEI.cpp lines 76-108).  Returns the reported speed
together with the successor state.  The drain of
`(_nSpeedAvrTimeSum, _nSpeedAvrTimeCount)` happens under
`__disable_irq`; in this sequential model it is simply the first step.
`_nSpeedTimeoutCount++ > _nSpeedTimeoutMax` post-increments: the
comparison uses the value before the increment. -/
def getSpeed (s : State) : ℚ × State :=
  let avrTimeSum := s.nSpeedAvrTimeSum
  let avrTimeCount := s.nSpeedAvrTimeCount
  let s0 := { s with nSpeedAvrTimeSum := 0, nSpeedAvrTimeCount := 0 }
  if avrTimeCount == 0 then
    let fLastSpeed :=
      if s0.nSpeedTimeoutCount > s0.nSpeedTimeoutMax then
        s0.fLastSpeed * (1 / 2)
      else
        s0.fLastSpeed
    let fSpeed := fLastSpeed
    (fSpeed, { s0 with
                nSpeedTimeoutCount := s0.nSpeedTimeoutCount + 1
                fLastSpeed := fSpeed })
  else if avrTimeCount < 0 || avrTimeSum == 0 then
    (0, { s0 with nSpeedTimeoutCount := 0, fLastSpeed := 0 })
  else
    let fSpeed := 1000000 * s0.fSpeedFactor / ((avrTimeSum : ℚ) / (avrTimeCount : ℚ))
    (fSpeed, { s0 with nSpeedTimeoutCount := 0, fLastSpeed := fSpeed })

/-- The direction decoded by `QEI::encode` (QEI.cpp lines 174-206) as the
local variable `change`: `0` forward, `1` backward, `-1` no valid pulse.
In X4 mode the direction of a valid transition is
`(_prevState & PREV_MASK) ^ ((_currState & CURR_MASK) >> 1)`
(QEI.cpp line 196). -/
def decodeChange (encoding : Encoding) (prevState currState : Nat) : Int :=
  match encoding with
  | .X2_ENCODING =>
    if (prevState == 0x03 && currState == 0x00) ||
       (prevState == 0x00 && currState == 0x02) then 0
    else if (prevState == 0x02 && currState == 0x01) ||
            (prevState == 0x01 && currState == 0x02) then 1
    else -1
  | .X4_ENCODING =>
    if ((currState ^^^ prevState) != INVALID) && (currState != prevState) then
      ((prevState &&& PREV_MASK) ^^^ ((currState &&& CURR_MASK) >>> 1) : Nat)
    else -1

/-- Computation `unsigned int diff = act - _nSpeedLastTimer` (QEI.cpp line 212):
wraparound subtraction of 32-bit unsigned values. -/
def timerDiff (act lastTimer : Nat) : Nat :=
  (act % UINT32 + (UINT32 - lastTimer % UINT32)) % UINT32

/-- Method `QEI::encode` (QEI.cpp lines 165-229).  `chanA`, `chanB` are the
values read from the channel pins, `act` is `_SpeedTimer.read_us()`.
The pulse-count update (lines 177-204) is `+1` when `change == 0`,
`-1` when `change == 1`, unchanged otherwise; `_prevState = _currState`
(line 207) runs unconditionally; the speed window update (lines 209-228)
runs only when `change != -1`. -/
def encode (s : State) (chanA chanB act : Nat) : State :=
  let currState := (chanA <<< 1) ||| chanB
  let change := decodeChange s.encoding s.prevState currState
  let pulses :=
    if change == 0 then s.pulses + 1
    else if change == 1 then s.pulses - 1
    else s.pulses
  let s1 := { s with currState := currState, prevState := currState, pulses := pulses }
  if change != -1 then
    let diff := timerDiff act s.nSpeedLastTimer
    let s2 := { s1 with nSpeedLastTimer := act % UINT32 }
    if s.nSpeedAvrTimeCount < 0 then
      { s2 with nSpeedAvrTimeSum := 0, nSpeedAvrTimeCount := 0 }
    else
      { s2 with
          nSpeedAvrTimeSum :=
            if change == 0 then s.nSpeedAvrTimeSum + diff
            else s.nSpeedAvrTimeSum - diff
          nSpeedAvrTimeCount := s.nSpeedAvrTimeCount + 1 }
  else s1

/-- Method `QEI::index` (QEI.cpp lines 231-234). -/
def index (s : State) : State :=
  { s with revolutions := s.revolutions + 1 }

end QEI

/-- State reached when the drained sample count is 0, the timeout counter
has just reached TimeoutMax = 10, and the last speed is 1 (as after ten
consecutive empty queries that followed a query reporting speed 1). -/
def timeoutBoundaryState : QEI.State :=
  { QEI.construct .X4_ENCODING 0 0 with
      nSpeedAvrTimeCount := 0
      nSpeedTimeoutCount := 10
      fLastSpeed := 1 }

/-- State with a drained, idle window (sum = 0, count = 0) and a nonzero
last speed, as reached right after a successful speed query. -/
def drainedIdleState : QEI.State :=
  { QEI.construct .X4_ENCODING 0 0 with
      nSpeedAvrTimeCount := 0
      fLastSpeed := 5 }

/-- The spec scenario for X4 mode: starting from the constructed state
reading channel state 00, feed the four forward transitions
00 to 01, 01 to 11, 11 to 10, 10 to 00 at timestamps 0, 1000, 2000,
3000 microseconds. -/
def forwardCycle : QEI.State :=
  QEI.encode (QEI.encode (QEI.encode (QEI.encode
    (QEI.construct .X4_ENCODING 0 0) 0 1 0) 1 1 1000) 1 0 2000) 0 0 3000

/-- Construction immediately followed by reset, then a valid forward
pulse (00 to 01) at timestamp 100. -/
def resetThenPulse : QEI.State :=
  QEI.encode (QEI.reset (QEI.construct .X4_ENCODING 0 0)) 0 1 100

/-- State whose window has already left the construction-time sentinel:
the sample count is 0. -/
def accumulatingState : QEI.State :=
  { QEI.construct .X4_ENCODING 0 0 with nSpeedAvrTimeCount := 0 }

/-- Helper: when the last stored timer value is at most the current one
and no 32-bit wrap occurred, the wraparound difference is the plain
difference of the timestamps. -/
theorem timerDiff_eq_sub (act lastTimer : Nat)
    (h1 : lastTimer ≤ act) (h2 : act < QEI.UINT32) :
    QEI.timerDiff act lastTimer = act - lastTimer := by
  have hu : QEI.UINT32 = 4294967296 := by norm_num [QEI.UINT32]
  unfold QEI.timerDiff
  rw [hu] at h2 ⊢
  omega

/-- Helper: a valid pulse hitting the freshly reset window (negative
sample count) zeroes the window and stores the timestamp. -/
theorem encode_valid_fresh (s : QEI.State) (chanA chanB act : Nat)
    (hc : QEI.decodeChange s.encoding s.prevState ((chanA <<< 1) ||| chanB) ≠ -1)
    (hneg : s.nSpeedAvrTimeCount < 0) :
    (QEI.encode s chanA chanB act).nSpeedAvrTimeSum = 0 ∧
    (QEI.encode s chanA chanB act).nSpeedAvrTimeCount = 0 ∧
    (QEI.encode s chanA chanB act).nSpeedLastTimer = act % QEI.UINT32 := by
  simp [QEI.encode, hc, hneg]

/-- Helper: a valid pulse hitting an accumulating window (nonnegative
sample count) adds or subtracts the delta and bumps the count. -/
theorem encode_valid_accum (s : QEI.State) (chanA chanB act : Nat)
    (hc : QEI.decodeChange s.encoding s.prevState ((chanA <<< 1) ||| chanB) ≠ -1)
    (hpos : 0 ≤ s.nSpeedAvrTimeCount) :
    (QEI.encode s chanA chanB act).nSpeedAvrTimeSum =
      (if QEI.decodeChange s.encoding s.prevState ((chanA <<< 1) ||| chanB) = 0
       then s.nSpeedAvrTimeSum + QEI.timerDiff act s.nSpeedLastTimer
       else s.nSpeedAvrTimeSum - QEI.timerDiff act s.nSpeedLastTimer) ∧
    (QEI.encode s chanA chanB act).nSpeedAvrTimeCount = s.nSpeedAvrTimeCount + 1 ∧
    (QEI.encode s chanA chanB act).nSpeedLastTimer = act % QEI.UINT32 := by
  have hneg : ¬ s.nSpeedAvrTimeCount < 0 := by omega
  simp [QEI.encode, hc, hneg]

/-- Helper: a transition that yields no valid pulse leaves the speed
window and the stored timestamp untouched. -/
theorem encode_novalid_frame (s : QEI.State) (chanA chanB act : Nat)
    (hc : QEI.decodeChange s.encoding s.prevState ((chanA <<< 1) ||| chanB) = -1) :
    (QEI.encode s chanA chanB act).nSpeedAvrTimeSum = s.nSpeedAvrTimeSum ∧
    (QEI.encode s chanA chanB act).nSpeedAvrTimeCount = s.nSpeedAvrTimeCount ∧
    (QEI.encode s chanA chanB act).nSpeedLastTimer = s.nSpeedLastTimer := by
  simp [QEI.encode, hc]

/-- C1: in 4x mode, for every pair of 2-bit states with
previous XOR current different from 0b11 and previous different from
current, the decoder computes
direction = (previous AND 0b01) XOR ((current AND 0b10) shifted right 1)
and adds 1 to the pulse count when direction = 0 (Forward) and subtracts
1 when direction = 1 (Backward); when previous = current the pulse count
is unchanged (NoChange). -/
theorem x4_valid_direction (s : QEI.State) (chanA chanB act : Nat)
    (henc : s.encoding = .X4_ENCODING) (hp : s.prevState < 4)
    (hA : chanA < 2) (hB : chanB < 2) :
    (s.prevState ^^^ ((chanA <<< 1) ||| chanB) ≠ 3 →
      s.prevState ≠ (chanA <<< 1) ||| chanB →
      (QEI.encode s chanA chanB act).pulses =
        s.pulses +
          (if (s.prevState &&& 1) ^^^ ((((chanA <<< 1) ||| chanB) &&& 2) >>> 1) = 0
           then 1 else -1)) ∧
    (s.prevState = (chanA <<< 1) ||| chanB →
      (QEI.encode s chanA chanB act).pulses = s.pulses) := by
  obtain ⟨enc, prev, curr, pulses, rev, sf, pf, lt, tm, tc, avs, avc, ls⟩ := s
  dsimp only at henc hp ⊢
  subst henc
  have h32 : ((3 : Nat) &&& 2) >>> 1 = 1 := by decide
  have h22 : ((2 : Nat) &&& 2) >>> 1 = 1 := by decide
  have h12 : ((1 : Nat) &&& 2) >>> 1 = 0 := by decide
  have h02 : ((0 : Nat) &&& 2) >>> 1 = 0 := by decide
  interval_cases chanA <;> interval_cases chanB <;> interval_cases prev <;>
    simp [QEI.encode, QEI.decodeChange, QEI.INVALID, QEI.PREV_MASK, QEI.CURR_MASK,
      apply_ite QEI.State.pulses, h32, h22, h12, h02] <;>
    omega

/-- C1 witness: the transition 00 to 01 in 4x mode has direction 0 and
adds 1 to the pulse count. -/
theorem x4_valid_direction_witness :
    (QEI.construct .X4_ENCODING 0 0).prevState < 4 ∧
    (QEI.construct .X4_ENCODING 0 0).prevState ^^^ ((0 <<< 1) ||| 1) ≠ 3 ∧
    (QEI.construct .X4_ENCODING 0 0).prevState ≠ (0 <<< 1) ||| 1 ∧
    (QEI.encode (QEI.construct .X4_ENCODING 0 0) 0 1 0).pulses =
      (QEI.construct .X4_ENCODING 0 0).pulses +
        (if ((QEI.construct .X4_ENCODING 0 0).prevState &&& 1) ^^^
              ((((0 <<< 1) ||| 1) &&& 2) >>> 1) = 0 then 1 else -1) :=
  ⟨by decide, by decide, by decide,
   (x4_valid_direction (QEI.construct .X4_ENCODING 0 0) 0 1 0 rfl
     (by decide) (by decide) (by decide)).1 (by decide) (by decide)⟩

/-- C2: in 2x mode the pulse count gains 1 exactly on the pairs
(11, 00) and (00, 10), loses 1 exactly on (10, 01) and (01, 10), and is
unchanged on every other pair, including previous = current. -/
theorem x2_transition_table (s : QEI.State) (chanA chanB act : Nat)
    (henc : s.encoding = .X2_ENCODING) (hp : s.prevState < 4)
    (hA : chanA < 2) (hB : chanB < 2) :
    (QEI.encode s chanA chanB act).pulses =
      s.pulses +
        (if (s.prevState = 3 ∧ (chanA <<< 1) ||| chanB = 0) ∨
            (s.prevState = 0 ∧ (chanA <<< 1) ||| chanB = 2) then 1
         else if (s.prevState = 2 ∧ (chanA <<< 1) ||| chanB = 1) ∨
                 (s.prevState = 1 ∧ (chanA <<< 1) ||| chanB = 2) then -1
         else 0) := by
  obtain ⟨enc, prev, curr, pulses, rev, sf, pf, lt, tm, tc, avs, avc, ls⟩ := s
  dsimp only at henc hp ⊢
  subst henc
  interval_cases chanA <;> interval_cases chanB <;> interval_cases prev <;>
    simp [QEI.encode, QEI.decodeChange, apply_ite QEI.State.pulses] <;>
    omega

/-- C2 witness: the transition 11 to 00 in 2x mode adds 1 to the pulse
count. -/
theorem x2_transition_table_witness :
    (QEI.construct .X2_ENCODING 1 1).encoding = .X2_ENCODING ∧
    (QEI.construct .X2_ENCODING 1 1).prevState < 4 ∧
    (QEI.encode (QEI.construct .X2_ENCODING 1 1) 0 0 0).pulses =
      (QEI.construct .X2_ENCODING 1 1).pulses +
        (if ((QEI.construct .X2_ENCODING 1 1).prevState = 3 ∧ (0 <<< 1) ||| 0 = 0) ∨
            ((QEI.construct .X2_ENCODING 1 1).prevState = 0 ∧ (0 <<< 1) ||| 0 = 2) then 1
         else if ((QEI.construct .X2_ENCODING 1 1).prevState = 2 ∧ (0 <<< 1) ||| 0 = 1) ∨
                 ((QEI.construct .X2_ENCODING 1 1).prevState = 1 ∧ (0 <<< 1) ||| 0 = 2) then -1
         else 0) :=
  ⟨rfl, by decide,
   x2_transition_table (QEI.construct .X2_ENCODING 1 1) 0 0 0 rfl
     (by decide) (by decide) (by decide)⟩

/-- C3 counterexample: with the drained count 0, the timeout counter at
TimeoutMax = 10 and LastSpeed 1, the incremented counter (11) exceeds
TimeoutMax, yet the code does not halve LastSpeed: the post-increment
comparison in the source uses the value before the increment, so halving
only starts once the pre-increment counter exceeds TimeoutMax. -/
theorem getSpeed_timeout_offbyone_counterexample :
    timeoutBoundaryState.nSpeedAvrTimeCount = 0 ∧
    timeoutBoundaryState.nSpeedTimeoutMax < timeoutBoundaryState.nSpeedTimeoutCount + 1 ∧
    (QEI.getSpeed timeoutBoundaryState).2.nSpeedTimeoutCount =
      timeoutBoundaryState.nSpeedTimeoutCount + 1 ∧
    (QEI.getSpeed timeoutBoundaryState).2.fLastSpeed = 1 ∧
    ¬ (QEI.getSpeed timeoutBoundaryState).2.fLastSpeed =
        timeoutBoundaryState.fLastSpeed * (1 / 2) := by
  refine ⟨by decide, by decide, by decide, ?_, ?_⟩ <;>
    norm_num [QEI.getSpeed, timeoutBoundaryState, QEI.construct]

/-- C3 amended: for every getSpeed call where the drained sample count is
0, the call increments TimeoutCounter; it halves LastSpeed exactly when
the pre-increment counter exceeds TimeoutMax (equivalently, when the
incremented counter exceeds TimeoutMax + 1); it reports LastSpeed; and
once the counter has exceeded TimeoutMax, each further empty query
strictly decreases the absolute value of a nonzero LastSpeed by half. -/
theorem getSpeed_empty_window (s : QEI.State) (h : s.nSpeedAvrTimeCount = 0) :
    (QEI.getSpeed s).2.nSpeedTimeoutCount = s.nSpeedTimeoutCount + 1 ∧
    (QEI.getSpeed s).2.fLastSpeed =
      (if s.nSpeedTimeoutMax < s.nSpeedTimeoutCount then s.fLastSpeed * (1 / 2)
       else s.fLastSpeed) ∧
    (QEI.getSpeed s).1 = (QEI.getSpeed s).2.fLastSpeed ∧
    (s.nSpeedTimeoutMax < s.nSpeedTimeoutCount → s.fLastSpeed ≠ 0 →
      |(QEI.getSpeed s).2.fLastSpeed| = |s.fLastSpeed| / 2 ∧
      |(QEI.getSpeed s).2.fLastSpeed| < |s.fLastSpeed|) := by
  refine ⟨?_, ?_, ?_, ?_⟩
  · simp [QEI.getSpeed, h]
  · simp [QEI.getSpeed, h]
  · simp [QEI.getSpeed, h]
  · intro hm hx
    have e : (QEI.getSpeed s).2.fLastSpeed = s.fLastSpeed * (1 / 2) := by
      simp [QEI.getSpeed, h, hm]
    rw [e, abs_mul]
    constructor
    · rw [show |(1 / 2 : ℚ)| = 1 / 2 by norm_num]
      ring
    · have hpos : 0 < |s.fLastSpeed| := abs_pos.mpr hx
      calc |s.fLastSpeed| * |(1 / 2 : ℚ)| = |s.fLastSpeed| / 2 := by
            rw [show |(1 / 2 : ℚ)| = 1 / 2 by norm_num]; ring
        _ < |s.fLastSpeed| := half_lt_self hpos

/-- C3 witness: the amended statement evaluated at the boundary state. -/
theorem getSpeed_empty_window_witness :
    timeoutBoundaryState.nSpeedAvrTimeCount = 0 ∧
    ((QEI.getSpeed timeoutBoundaryState).2.nSpeedTimeoutCount =
        timeoutBoundaryState.nSpeedTimeoutCount + 1 ∧
     (QEI.getSpeed timeoutBoundaryState).2.fLastSpeed =
        (if timeoutBoundaryState.nSpeedTimeoutMax < timeoutBoundaryState.nSpeedTimeoutCount
         then timeoutBoundaryState.fLastSpeed * (1 / 2)
         else timeoutBoundaryState.fLastSpeed) ∧
     (QEI.getSpeed timeoutBoundaryState).1 = (QEI.getSpeed timeoutBoundaryState).2.fLastSpeed ∧
     (timeoutBoundaryState.nSpeedTimeoutMax < timeoutBoundaryState.nSpeedTimeoutCount →
      timeoutBoundaryState.fLastSpeed ≠ 0 →
      |(QEI.getSpeed timeoutBoundaryState).2.fLastSpeed| =
        |timeoutBoundaryState.fLastSpeed| / 2 ∧
      |(QEI.getSpeed timeoutBoundaryState).2.fLastSpeed| <
        |timeoutBoundaryState.fLastSpeed|)) :=
  ⟨by decide, getSpeed_empty_window timeoutBoundaryState (by decide)⟩

/-- C4: on every valid pulse event, with delta the wraparound difference
between the current timestamp and the stored one: a negative sample
count (the -1 sentinel) discards the delta and leaves the window at
sum = 0, count = 0; otherwise the sum gains delta for Forward
(change = 0) and loses it for Backward, and the count gains 1; in both
cases the timestamp is stored.  Transitions with no valid pulse leave
the window and the stored timestamp untouched.  When no 32-bit wrap
occurred, delta is the plain difference of the timestamps. -/
theorem encode_window_update (s : QEI.State) (chanA chanB act : Nat) :
    (QEI.decodeChange s.encoding s.prevState ((chanA <<< 1) ||| chanB) ≠ -1 →
      ((s.nSpeedAvrTimeCount < 0 →
         (QEI.encode s chanA chanB act).nSpeedAvrTimeSum = 0 ∧
         (QEI.encode s chanA chanB act).nSpeedAvrTimeCount = 0) ∧
       (0 ≤ s.nSpeedAvrTimeCount →
         (QEI.encode s chanA chanB act).nSpeedAvrTimeSum =
           (if QEI.decodeChange s.encoding s.prevState ((chanA <<< 1) ||| chanB) = 0
            then s.nSpeedAvrTimeSum + QEI.timerDiff act s.nSpeedLastTimer
            else s.nSpeedAvrTimeSum - QEI.timerDiff act s.nSpeedLastTimer) ∧
         (QEI.encode s chanA chanB act).nSpeedAvrTimeCount = s.nSpeedAvrTimeCount + 1) ∧
       (QEI.encode s chanA chanB act).nSpeedLastTimer = act % QEI.UINT32)) ∧
    (QEI.decodeChange s.encoding s.prevState ((chanA <<< 1) ||| chanB) = -1 →
      (QEI.encode s chanA chanB act).nSpeedAvrTimeSum = s.nSpeedAvrTimeSum ∧
      (QEI.encode s chanA chanB act).nSpeedAvrTimeCount = s.nSpeedAvrTimeCount ∧
      (QEI.encode s chanA chanB act).nSpeedLastTimer = s.nSpeedLastTimer) ∧
    (s.nSpeedLastTimer ≤ act → act < QEI.UINT32 →
      QEI.timerDiff act s.nSpeedLastTimer = act - s.nSpeedLastTimer) := by
  refine ⟨fun hc => ⟨fun hneg => ?_, fun hpos => ?_, ?_⟩,
          fun hc => encode_novalid_frame s chanA chanB act hc,
          fun h1 h2 => timerDiff_eq_sub act s.nSpeedLastTimer h1 h2⟩
  · exact ⟨(encode_valid_fresh s chanA chanB act hc hneg).1,
           (encode_valid_fresh s chanA chanB act hc hneg).2.1⟩
  · exact ⟨(encode_valid_accum s chanA chanB act hc hpos).1,
           (encode_valid_accum s chanA chanB act hc hpos).2.1⟩
  · by_cases hneg : s.nSpeedAvrTimeCount < 0
    · exact (encode_valid_fresh s chanA chanB act hc hneg).2.2
    · exact (encode_valid_accum s chanA chanB act hc (by omega)).2.2

/-- C4 witness: the first valid pulse after construction hits the -1
sentinel, so its delta is discarded and the window becomes 0, 0. -/
theorem encode_window_update_witness :
    QEI.decodeChange (QEI.construct .X4_ENCODING 0 0).encoding
        (QEI.construct .X4_ENCODING 0 0).prevState ((0 <<< 1) ||| 1) ≠ -1 ∧
    (QEI.construct .X4_ENCODING 0 0).nSpeedAvrTimeCount < 0 ∧
    (QEI.encode (QEI.construct .X4_ENCODING 0 0) 0 1 5).nSpeedAvrTimeSum = 0 ∧
    (QEI.encode (QEI.construct .X4_ENCODING 0 0) 0 1 5).nSpeedAvrTimeCount = 0 :=
  ⟨by decide, by decide,
   ((encode_window_update (QEI.construct .X4_ENCODING 0 0) 0 1 5).1 (by decide)).1 (by decide)⟩

/-- C5: with previous XOR current equal to 0b11 in 4x mode the pulse
count is unchanged, and the stored previous state is set to the current
state on every decoder invocation, in both modes and for all
transitions. -/
theorem x4_invalid_and_prev_update (s : QEI.State) (chanA chanB act : Nat) :
    (QEI.encode s chanA chanB act).prevState = (chanA <<< 1) ||| chanB ∧
    (s.encoding = .X4_ENCODING →
      s.prevState ^^^ ((chanA <<< 1) ||| chanB) = 3 →
      (QEI.encode s chanA chanB act).pulses = s.pulses) := by
  constructor
  · unfold QEI.encode
    dsimp only
    split <;> split <;> rfl
  · intro henc hx
    have hchg : QEI.decodeChange s.encoding s.prevState ((chanA <<< 1) ||| chanB) = -1 := by
      rw [henc]
      unfold QEI.decodeChange
      have hsymm : ((chanA <<< 1) ||| chanB) ^^^ s.prevState = 3 := by
        rw [Nat.xor_comm]; exact hx
      simp [hsymm, QEI.INVALID]
    unfold QEI.encode
    simp [hchg]

/-- C5 witness: the double-bit flip 00 to 11 in 4x mode keeps the pulse
count at 0 while the previous state becomes 11. -/
theorem x4_invalid_and_prev_update_witness :
    (QEI.encode (QEI.construct .X4_ENCODING 0 0) 1 1 0).prevState = (1 <<< 1) ||| 1 ∧
    (QEI.construct .X4_ENCODING 0 0).prevState ^^^ ((1 <<< 1) ||| 1) = 3 ∧
    (QEI.encode (QEI.construct .X4_ENCODING 0 0) 1 1 0).pulses =
      (QEI.construct .X4_ENCODING 0 0).pulses :=
  ⟨(x4_invalid_and_prev_update (QEI.construct .X4_ENCODING 0 0) 1 1 0).1, by decide,
   (x4_invalid_and_prev_update (QEI.construct .X4_ENCODING 0 0) 1 1 0).2 rfl (by decide)⟩

/-- C6: for every getSpeed call where the drained count is positive and
the drained sum is nonzero, the returned speed is
1000000 times speedFactor divided by (sum / count) and TimeoutCounter is
reset to 0; and in the spec scenario (4x mode, factor 1, four forward
transitions 00, 01, 11, 10, 00 at timestamps 0, 1000, 2000, 3000
microseconds) the pulse count is 4 and an immediate query reports
1000000 / ((1000 + 1000 + 1000) / 3) = 1000. -/
theorem getSpeed_average_formula :
    (∀ s : QEI.State, 0 < s.nSpeedAvrTimeCount → s.nSpeedAvrTimeSum ≠ 0 →
      (QEI.getSpeed s).1 =
        1000000 * s.fSpeedFactor /
          ((s.nSpeedAvrTimeSum : ℚ) / (s.nSpeedAvrTimeCount : ℚ)) ∧
      (QEI.getSpeed s).2.nSpeedTimeoutCount = 0) ∧
    forwardCycle.pulses = 4 ∧ (QEI.getSpeed forwardCycle).1 = 1000 := by
  have hgen : ∀ s : QEI.State, 0 < s.nSpeedAvrTimeCount → s.nSpeedAvrTimeSum ≠ 0 →
      (QEI.getSpeed s).1 =
        1000000 * s.fSpeedFactor /
          ((s.nSpeedAvrTimeSum : ℚ) / (s.nSpeedAvrTimeCount : ℚ)) ∧
      (QEI.getSpeed s).2.nSpeedTimeoutCount = 0 := by
    intro s hcount hsum
    have h0 : s.nSpeedAvrTimeCount ≠ 0 := by omega
    have h1 : ¬ s.nSpeedAvrTimeCount < 0 := by omega
    simp [QEI.getSpeed, h0, h1, hsum]
  refine ⟨hgen, by decide, ?_⟩
  have hsum : forwardCycle.nSpeedAvrTimeSum = 3000 := by decide
  have hcount : forwardCycle.nSpeedAvrTimeCount = 3 := by decide
  have hfac : forwardCycle.fSpeedFactor = 1 := by decide
  have hval := (hgen forwardCycle (by omega) (by omega)).1
  rw [hval, hsum, hcount, hfac]
  norm_num

/-- C6 witness: the formula part evaluated at the scenario state, whose
window holds sum 3000 over 3 samples. -/
theorem getSpeed_average_formula_witness :
    0 < forwardCycle.nSpeedAvrTimeCount ∧
    forwardCycle.nSpeedAvrTimeSum ≠ 0 ∧
    ((QEI.getSpeed forwardCycle).1 =
      1000000 * forwardCycle.fSpeedFactor /
        ((forwardCycle.nSpeedAvrTimeSum : ℚ) / (forwardCycle.nSpeedAvrTimeCount : ℚ)) ∧
     (QEI.getSpeed forwardCycle).2.nSpeedTimeoutCount = 0) :=
  ⟨by decide, by decide,
   getSpeed_average_formula.1 forwardCycle (by decide) (by decide)⟩

/-- C7 counterexample: a drained window with count 0 and sum 0 after a
nonzero LastSpeed takes the timeout branch, not the stop branch: the
call reports LastSpeed (5, not 0) and increments the timeout counter
instead of resetting it, refuting the unconditional reading of
"drained sum equals 0 implies report 0 and reset". -/
theorem getSpeed_zero_sum_counterexample :
    drainedIdleState.nSpeedAvrTimeSum = 0 ∧
    (QEI.getSpeed drainedIdleState).1 = 5 ∧
    (QEI.getSpeed drainedIdleState).1 ≠ 0 ∧
    (QEI.getSpeed drainedIdleState).2.nSpeedTimeoutCount = 1 := by
  refine ⟨by decide, ?_, ?_, by decide⟩ <;>
    norm_num [QEI.getSpeed, drainedIdleState, QEI.construct]

/-- C7 amended: for every getSpeed call where the drained count is
negative (the -1 sentinel), or the drained count is nonzero and the
drained sum is 0, the call reports speed 0 and resets TimeoutCounter to
0; in particular the very first query after construction returns 0 and
leaves the timeout counter at 0.  (A drained count equal to 0 instead
takes the timeout branch, even when the sum is 0.) -/
theorem getSpeed_stop_condition :
    (∀ s : QEI.State,
      s.nSpeedAvrTimeCount < 0 ∨ (s.nSpeedAvrTimeCount ≠ 0 ∧ s.nSpeedAvrTimeSum = 0) →
      (QEI.getSpeed s).1 = 0 ∧ (QEI.getSpeed s).2.nSpeedTimeoutCount = 0) ∧
    (∀ (e : QEI.Encoding) (chanA chanB : Nat),
      (QEI.getSpeed (QEI.construct e chanA chanB)).1 = 0 ∧
      (QEI.getSpeed (QEI.construct e chanA chanB)).2.nSpeedTimeoutCount = 0) := by
  constructor
  · intro s h
    have h0 : s.nSpeedAvrTimeCount ≠ 0 := by rcases h with h | ⟨h1, _⟩ <;> omega
    rcases h with h | ⟨h1, h2⟩
    · simp [QEI.getSpeed, h0, h]
    · simp [QEI.getSpeed, h0, h2]
  · intro e chanA chanB
    simp [QEI.getSpeed, QEI.construct]

/-- C7 witness: the stop condition evaluated right after construction,
where the drained count is the -1 sentinel. -/
theorem getSpeed_stop_condition_witness :
    ((QEI.construct .X4_ENCODING 0 0).nSpeedAvrTimeCount < 0 ∨
      ((QEI.construct .X4_ENCODING 0 0).nSpeedAvrTimeCount ≠ 0 ∧
       (QEI.construct .X4_ENCODING 0 0).nSpeedAvrTimeSum = 0)) ∧
    ((QEI.getSpeed (QEI.construct .X4_ENCODING 0 0)).1 = 0 ∧
     (QEI.getSpeed (QEI.construct .X4_ENCODING 0 0)).2.nSpeedTimeoutCount = 0) :=
  ⟨Or.inl (by decide),
   getSpeed_stop_condition.1 (QEI.construct .X4_ENCODING 0 0) (Or.inl (by decide))⟩

/-- C8: every getSpeed call, in all branches, leaves the sample window
drained to sum = 0 and count = 0 (so the -1 sentinel never reappears
after a query) and stores the reported value as the new LastSpeed. -/
theorem getSpeed_drains_window (s : QEI.State) :
    (QEI.getSpeed s).2.nSpeedAvrTimeSum = 0 ∧
    (QEI.getSpeed s).2.nSpeedAvrTimeCount = 0 ∧
    (QEI.getSpeed s).2.fLastSpeed = (QEI.getSpeed s).1 := by
  unfold QEI.getSpeed
  dsimp only
  split
  · exact ⟨rfl, rfl, rfl⟩
  · split
    · exact ⟨rfl, rfl, rfl⟩
    · exact ⟨rfl, rfl, rfl⟩

/-- C9 counterexample: calling reset right after construction leaves the
construction-time -1 sentinel in place, so the first valid pulse after
reset (00 to 01 at timestamp 100, which does add 1 to the pulse count)
has its delta discarded: the window count becomes 0, not 1, refuting the
unconditional reading of "the first pulse after reset has its delta
accumulated rather than discarded". -/
theorem reset_then_pulse_counterexample :
    (QEI.reset (QEI.construct .X4_ENCODING 0 0)).nSpeedAvrTimeCount = -1 ∧
    resetThenPulse.pulses = 1 ∧
    resetThenPulse.nSpeedAvrTimeCount = 0 ∧
    resetThenPulse.nSpeedAvrTimeSum = 0 :=
  ⟨by decide, by decide, by decide, by decide⟩

/-- C9 amended: reset sets both the pulse count and the revolution count
to 0 regardless of their prior values and changes nothing else (previous
and current state, the factors, the speed window, the stored timestamp,
LastSpeed, the timeout counter and bound, and the encoding are all
unchanged); in particular it does not restore the -1 sentinel, so when
the window count is nonnegative at reset time the first valid pulse
after reset has its delta accumulated (the count gains 1) rather than
discarded. -/
theorem reset_frame (s : QEI.State) :
    ((QEI.reset s).pulses = 0 ∧
     (QEI.reset s).revolutions = 0 ∧
     (QEI.reset s).encoding = s.encoding ∧
     (QEI.reset s).prevState = s.prevState ∧
     (QEI.reset s).currState = s.currState ∧
     (QEI.reset s).fSpeedFactor = s.fSpeedFactor ∧
     (QEI.reset s).fPositionFactor = s.fPositionFactor ∧
     (QEI.reset s).nSpeedLastTimer = s.nSpeedLastTimer ∧
     (QEI.reset s).nSpeedTimeoutMax = s.nSpeedTimeoutMax ∧
     (QEI.reset s).nSpeedTimeoutCount = s.nSpeedTimeoutCount ∧
     (QEI.reset s).nSpeedAvrTimeSum = s.nSpeedAvrTimeSum ∧
     (QEI.reset s).nSpeedAvrTimeCount = s.nSpeedAvrTimeCount ∧
     (QEI.reset s).fLastSpeed = s.fLastSpeed) ∧
    (∀ chanA chanB act : Nat,
      0 ≤ s.nSpeedAvrTimeCount →
      QEI.decodeChange s.encoding s.prevState ((chanA <<< 1) ||| chanB) ≠ -1 →
      (QEI.encode (QEI.reset s) chanA chanB act).nSpeedAvrTimeCount =
        s.nSpeedAvrTimeCount + 1) := by
  refine ⟨⟨rfl, rfl, rfl, rfl, rfl, rfl, rfl, rfl, rfl, rfl, rfl, rfl, rfl⟩, ?_⟩
  intro chanA chanB act hpos hc
  exact (encode_valid_accum (QEI.reset s) chanA chanB act hc hpos).2.1

/-- C9 witness: for a state whose window count is already 0, the first
valid pulse after reset bumps the window count to 1. -/
theorem reset_frame_witness :
    (0 : Int) ≤ accumulatingState.nSpeedAvrTimeCount ∧
    QEI.decodeChange accumulatingState.encoding accumulatingState.prevState
      ((0 <<< 1) ||| 1) ≠ -1 ∧
    (QEI.encode (QEI.reset accumulatingState) 0 1 7).nSpeedAvrTimeCount =
      accumulatingState.nSpeedAvrTimeCount + 1 :=
  ⟨by decide, by decide,
   (reset_frame accumulatingState).2 0 1 7 (by decide) (by decide)⟩

/-- C10: write followed by read returns the written value; write leaves
the revolution count and the speed window unchanged; and getPosition is
the pure product of the pulse count and the position factor, for any
factor. -/
theorem write_read_position (s : QEI.State) (v : Int) :
    QEI.read (QEI.write s v) = v ∧
    (QEI.write s v).revolutions = s.revolutions ∧
    (QEI.write s v).nSpeedAvrTimeSum = s.nSpeedAvrTimeSum ∧
    (QEI.write s v).nSpeedAvrTimeCount = s.nSpeedAvrTimeCount ∧
    QEI.getPosition s = (s.pulses : ℚ) * s.fPositionFactor :=
  ⟨rfl, rfl, rfl, rfl, rfl⟩
